import Mathlib

/-!
Verification of the Workshop 4 notebook
`Modeling_Protein_Ligand_Interactions_With_Atomic_Convolutions.ipynb`
of the GouldGroup/aidd-workshops repository.

The notebook is a scripted sequence of DeepChem library calls: it builds an
`AtomicConvFeaturizer`, loads the PDBbind core set with `load_pdbbind`, builds
an `AtomicConvModel`, trains it with 50 one-epoch `fit` calls while recording
one validation loss per epoch, plots the two loss histories, and finally
evaluates the model on the train, validation and test splits with the
Pearson R2 metric.

DeepChem itself is not part of the repository, so its calls are modelled
abstractly: an `Oracle` supplies the semantic outcome of every external call
(the loaded splits, each fit step's state transition and reported losses, and
each metric value), while every argument the notebook passes and the order of
the calls are embedded directly from the notebook's code cells.  Real-valued
losses and metric values are modelled as rationals.
-/

/-- Notebook cell: `f1_num_atoms = 100`, the maximum number of atoms to
consider in the ligand. -/
def f1_num_atoms : Nat := 100

/-- Notebook cell: `f2_num_atoms = 1000`, the maximum number of atoms to
consider in the protein. -/
def f2_num_atoms : Nat := 1000

/-- Notebook cell: `max_num_neighbors = 12`, the maximum number of spatial
neighbors for an atom. -/
def max_num_neighbors : Nat := 12

/-- The keyword arguments the notebook passes to the `AtomicConvFeaturizer`
constructor. -/
structure AtomicConvFeaturizer where
  frag1_num_atoms : Nat
  frag2_num_atoms : Nat
  complex_num_atoms : Nat
  max_num_neighbors : Nat
  neighbor_cutoff : Nat
deriving DecidableEq

/-- Notebook cell: `acf = AtomicConvFeaturizer(frag1_num_atoms=f1_num_atoms,
frag2_num_atoms=f2_num_atoms, complex_num_atoms=f1_num_atoms+f2_num_atoms,
max_num_neighbors=max_num_neighbors, neighbor_cutoff=4)`. -/
def acf : AtomicConvFeaturizer :=
  { frag1_num_atoms := f1_num_atoms
    frag2_num_atoms := f2_num_atoms
    complex_num_atoms := f1_num_atoms + f2_num_atoms
    max_num_neighbors := max_num_neighbors
    neighbor_cutoff := 4 }

/-- The keyword arguments the notebook passes to `load_pdbbind`. -/
structure LoadPdbbindArgs where
  featurizer : AtomicConvFeaturizer
  save_dir : String
  data_dir : String
  pocket : Bool
  reload : Bool
  set_name : String
deriving DecidableEq

/-- Notebook cell: `tasks, datasets, transformers = load_pdbbind(featurizer=acf,
save_dir='.', data_dir='.', pocket=True, reload=False, set_name='core')` —
the argument record of that call. -/
def load_pdbbind_args : LoadPdbbindArgs :=
  { featurizer := acf
    save_dir := "."
    data_dir := "."
    pocket := true
    reload := false
    set_name := "core" }

/-- The keyword arguments the notebook passes to the `AtomicConvModel`
constructor. -/
structure AtomicConvModel where
  n_tasks : Nat
  frag1_num_atoms : Nat
  frag2_num_atoms : Nat
  complex_num_atoms : Nat
  max_num_neighbors : Nat
  batch_size : Nat
  layer_sizes : List Nat
  learning_rate : Rat
deriving DecidableEq

/-- Notebook cell: `acm = AtomicConvModel(n_tasks=1,
frag1_num_atoms=f1_num_atoms, frag2_num_atoms=f2_num_atoms,
complex_num_atoms=f1_num_atoms+f2_num_atoms,
max_num_neighbors=max_num_neighbors, batch_size=12, layer_sizes=[32, 32, 16],
learning_rate=0.003)`. -/
def acm : AtomicConvModel :=
  { n_tasks := 1
    frag1_num_atoms := f1_num_atoms
    frag2_num_atoms := f2_num_atoms
    complex_num_atoms := f1_num_atoms + f2_num_atoms
    max_num_neighbors := max_num_neighbors
    batch_size := 12
    layer_sizes := [32, 32, 16]
    learning_rate := 0.003 }

/-- The two DeepChem scoring functions the notebook wraps in
`dc.metrics.Metric`. -/
inductive ScoreFunction where
  | rms_score
  | pearson_r2_score
deriving DecidableEq

/-- The name under which a scoring function's value is keyed in the dictionary
an evaluate call returns (DeepChem keys the result by `metric.name`). -/
def ScoreFunction.metricName : ScoreFunction → String
  | .rms_score => "rms_score"
  | .pearson_r2_score => "pearson_r2_score"

/-- One external library call the notebook issues during the training loop,
together with the arguments the notebook passes to it. -/
inductive Event (δ : Type) where
  | fitCall (ds : δ) (nb_epoch : Nat) (max_checkpoints_to_keep : Nat)
  | evalCall (ds : δ) (metrics : List ScoreFunction)

/-- Modelled from the spec: the external DeepChem API surface the notebook
invokes, which is not part of this repository.  `load_pdbbind` is the
dataset-loading call returning tasks, three data splits and a list of data
transformers; `fit` is the training call (model state in, model state and the
losses it appends to `all_losses` out); `evaluate` is the evaluation call
producing one value per requested scoring function.  `σ` is the model's
mutable trained state, `δ` a data split, `τ` a data transformer. -/
structure Oracle (σ δ τ : Type) where
  load_pdbbind : LoadPdbbindArgs → List String × (δ × δ × δ) × List τ
  acm_init : σ
  fit : σ → δ → Nat → σ × List Rat
  evaluate : σ → δ → ScoreFunction → Rat

/-- The dictionary `acm.evaluate(ds, metrics=...)` returns: one entry per
requested metric, keyed by the metric's name. -/
def acmEvaluate {σ δ τ : Type} (o : Oracle σ δ τ) (s : σ) (ds : δ)
    (metrics : List ScoreFunction) : List (String × Rat) :=
  metrics.map fun m => (m.metricName, o.evaluate s ds m)

/-- Python dictionary indexing `d[k]`.  Every lookup the notebook performs is
on a dictionary that contains the key, so the `none` branch (Python's
KeyError) never supplies the default. -/
def dictGet (d : List (String × Rat)) (k : String) : Rat :=
  (d.lookup k).getD 0

/-- The mutable state of the notebook's training-loop cell: the model's
trained state `acm`, the two loss-history lists `losses` and `val_losses`,
and the trace of library calls issued so far. -/
structure RunState (σ δ : Type) where
  acm : σ
  losses : List Rat
  val_losses : List Rat
  trace : List (Event δ)

/-- One iteration of the notebook's training loop:
`loss = acm.fit(train, nb_epoch=1, max_checkpoints_to_keep=1, all_losses=losses)`
followed by `metric = dc.metrics.Metric(dc.metrics.score_function.rms_score)`
and `val_losses.append(acm.evaluate(val, metrics=[metric])['rms_score']**2)`. -/
def trainStep {σ δ τ : Type} (o : Oracle σ δ τ) (train val : δ)
    (st : RunState σ δ) : RunState σ δ :=
  let fitRes := o.fit st.acm train 1
  let valDict := acmEvaluate o fitRes.1 val [ScoreFunction.rms_score]
  { acm := fitRes.1
    losses := st.losses ++ fitRes.2
    val_losses := st.val_losses ++ [dictGet valDict "rms_score" ^ 2]
    trace := st.trace ++
      [Event.fitCall train 1 1, Event.evalCall val [ScoreFunction.rms_score]] }

/-- Notebook cell: `max_epochs = 50`. -/
def max_epochs : Nat := 50

/-- The training loop started from an arbitrary state, folding `trainStep`
over `range(n)` (the Python loop variable `epoch` is unused in the body). -/
def loopFrom {σ δ τ : Type} (o : Oracle σ δ τ) (train val : δ)
    (st : RunState σ δ) (n : Nat) : RunState σ δ :=
  (List.range n).foldl (fun s _epoch => trainStep o train val s) st

/-- Notebook cells: `losses, val_losses = [], []` followed by
`for epoch in range(max_epochs): ...`. -/
def trainingLoop {σ δ τ : Type} (o : Oracle σ δ τ) (train val : δ) :
    RunState σ δ :=
  loopFrom o train val
    { acm := o.acm_init, losses := [], val_losses := [], trace := [] } max_epochs

/-- The model state after `n` fit calls, ignoring the interleaved
evaluations: the training trajectory. -/
def modelAfter {σ δ τ : Type} (o : Oracle σ δ τ) (train : δ) : Nat → σ
  | 0 => o.acm_init
  | n + 1 => (o.fit (modelAfter o train n) train 1).1

/-- The losses the fit call of epoch `n` appends to the `losses` history. -/
def epochLosses {σ δ τ : Type} (o : Oracle σ δ τ) (train : δ) (n : Nat) :
    List Rat :=
  (o.fit (modelAfter o train n) train 1).2

/-- The value epoch `n` appends to `val_losses`: the squared rms_score of the
model evaluated on the validation split right after that epoch's fit call. -/
def valLossAt {σ δ τ : Type} (o : Oracle σ δ τ) (train val : δ) (n : Nat) :
    Rat :=
  o.evaluate (modelAfter o train (n + 1)) val ScoreFunction.rms_score ^ 2

/-- One scatter-plot call `ax.scatter(xs, ys, label=...)`. -/
structure ScatterCall where
  xs : List Nat
  ys : List Rat
  label : String

/-- Everything the notebook produces after the imports: the unpacked results
of `load_pdbbind`, the state left by the training loop, the two scatter plots,
and the final per-split scores. -/
structure NotebookResult (σ δ τ : Type) where
  tasks : List String
  transformers : List τ
  run : RunState σ δ
  plots : List ScatterCall
  finalScores : List (String × List (String × Rat))

/-- The final evaluation loop, generalized to an arbitrary labelled list of
splits: `for tvt, ds in zip([...], datasets): print(tvt, acm.evaluate(ds,
metrics=[score]))` with `score = Metric(pearson_r2_score)`. -/
def finalEvalSeq {σ δ τ : Type} (o : Oracle σ δ τ) (s : σ)
    (l : List (String × δ)) : List (String × List (String × Rat)) :=
  l.map fun p => (p.1, acmEvaluate o s p.2 [ScoreFunction.pearson_r2_score])

/-- The notebook's whole scripted sequence:
`tasks, datasets, transformers = load_pdbbind(...)`;
`train, val, test = datasets`; the training loop; the plotting cell
`ax.scatter(range(len(losses)), losses, label='train loss')` and
`ax.scatter(range(len(val_losses)), val_losses, label='val loss')`; and the
final evaluation loop over `zip(['train', 'val', 'test'], datasets)`. -/
def notebook {σ δ τ : Type} (o : Oracle σ δ τ) : NotebookResult σ δ τ :=
  let loadRes := o.load_pdbbind load_pdbbind_args
  let train := loadRes.2.1.1
  let val := loadRes.2.1.2.1
  let test := loadRes.2.1.2.2
  let run := trainingLoop o train val
  { tasks := loadRes.1
    transformers := loadRes.2.2
    run := run
    plots :=
      [ { xs := List.range run.losses.length, ys := run.losses,
          label := "train loss" },
        { xs := List.range run.val_losses.length, ys := run.val_losses,
          label := "val loss" } ]
    finalScores :=
      finalEvalSeq o run.acm
        (List.zip ["train", "val", "test"] [train, val, test]) }

/-- Agreement of the atom-count and neighbor hyperparameters between the
featurizer and the model constructor calls. -/
def hyperparamsAgree (f : AtomicConvFeaturizer) (m : AtomicConvModel) : Bool :=
  (f.frag1_num_atoms == m.frag1_num_atoms) &&
  (f.frag2_num_atoms == m.frag2_num_atoms) &&
  (f.complex_num_atoms == m.complex_num_atoms) &&
  (f.max_num_neighbors == m.max_num_neighbors)

/-- Modelled from the spec: the external library raises a dimension-mismatch
failure when the hyperparameters between featurizer and model disagree, and
only then; the notebook itself contains no such check. -/
def dimensionCheck (f : AtomicConvFeaturizer) (m : AtomicConvModel) :
    Except String Unit :=
  if hyperparamsAgree f m then Except.ok () else Except.error "dimension mismatch"

/-- Modelled from the spec: `load_pdbbind` (external, not under src) splits its
input rows into train/validation/test.  The notebook's prose records an
80/10/10 split, realized as the two index cutoffs `⌊0.8 n⌋` and `⌊0.9 n⌋`
into a dataset of `n` rows; the triple is the three splits' row counts. -/
def splitSizes (n : Nat) : Nat × Nat × Nat :=
  (8 * n / 10, 9 * n / 10 - 8 * n / 10, n - 9 * n / 10)

/-- Modelled from the spec: the same external API surface as `Oracle`, but
with every call allowed to raise (`Except.error`), so that the propagation of
library exceptions through the notebook's code can be stated. -/
structure OracleE (σ δ τ : Type) where
  load_pdbbind : LoadPdbbindArgs → Except String (List String × (δ × δ × δ) × List τ)
  acm_init : σ
  fit : σ → δ → Nat → Except String (σ × List Rat)
  evaluate : σ → δ → ScoreFunction → Except String Rat

/-- Fallible version of `acmEvaluate`: the dictionary an evaluate call
returns, or the exception the metric computation raised. -/
def acmEvaluateE {σ δ τ : Type} (o : OracleE σ δ τ) (s : σ) (ds : δ) :
    List ScoreFunction → Except String (List (String × Rat))
  | [] => Except.ok []
  | m :: rest => do
    let v ← o.evaluate s ds m
    let tail ← acmEvaluateE o s ds rest
    pure ((m.metricName, v) :: tail)

/-- Fallible version of one training-loop iteration.  The notebook wraps the
body in no handler, so a raise aborts the iteration. -/
def trainStepE {σ δ τ : Type} (o : OracleE σ δ τ) (train val : δ)
    (st : RunState σ δ) : Except String (RunState σ δ) := do
  let fitRes ← o.fit st.acm train 1
  let valDict ← acmEvaluateE o fitRes.1 val [ScoreFunction.rms_score]
  pure
    { acm := fitRes.1
      losses := st.losses ++ fitRes.2
      val_losses := st.val_losses ++ [dictGet valDict "rms_score" ^ 2]
      trace := st.trace ++
        [Event.fitCall train 1 1, Event.evalCall val [ScoreFunction.rms_score]] }

/-- Fallible version of the training loop: a Python `for` loop aborts as soon
as an iteration raises, so the remaining iterations run only after a
successful step. -/
def trainingLoopFromE {σ δ τ : Type} (o : OracleE σ δ τ) (train val : δ) :
    Nat → RunState σ δ → Except String (RunState σ δ)
  | 0, st => Except.ok st
  | n + 1, st => trainStepE o train val st >>= trainingLoopFromE o train val n

/-- Fallible version of the final evaluation loop over the labelled splits. -/
def finalScoresE {σ δ τ : Type} (o : OracleE σ δ τ) (s : σ) :
    List (String × δ) → Except String (List (String × List (String × Rat)))
  | [] => Except.ok []
  | p :: rest => do
    let d ← acmEvaluateE o s p.2 [ScoreFunction.pearson_r2_score]
    let tail ← finalScoresE o s rest
    pure ((p.1, d) :: tail)

/-- The notebook's whole scripted sequence with every library call allowed to
raise.  The notebook contains no try/except, so the sequence is a plain
monadic chain: the first exception aborts everything after it and becomes the
result. -/
def notebookE {σ δ τ : Type} (o : OracleE σ δ τ) :
    Except String (NotebookResult σ δ τ) := do
  let loadRes ← o.load_pdbbind load_pdbbind_args
  let train := loadRes.2.1.1
  let val := loadRes.2.1.2.1
  let test := loadRes.2.1.2.2
  let run ← trainingLoopFromE o train val max_epochs
    { acm := o.acm_init, losses := [], val_losses := [], trace := [] }
  let finalScores ← finalScoresE o run.acm
    (List.zip ["train", "val", "test"] [train, val, test])
  pure
    { tasks := loadRes.1
      transformers := loadRes.2.2
      run := run
      plots :=
        [ { xs := List.range run.losses.length, ys := run.losses,
            label := "train loss" },
          { xs := List.range run.val_losses.length, ys := run.val_losses,
            label := "val loss" } ]
      finalScores := finalScores }

/-- The fit-only training loop from an arbitrary state: the same fold but
without the interleaved validation evaluations, used to state that those
evaluations do not alter the training trajectory. -/
def fitOnlyFrom {σ δ τ : Type} (o : Oracle σ δ τ) (train : δ)
    (p : σ × List Rat) (n : Nat) : σ × List Rat :=
  (List.range n).foldl
    (fun q _epoch => ((o.fit q.1 train 1).1, q.2 ++ (o.fit q.1 train 1).2)) p

/-- The notebook's training loop with the per-epoch validation evaluations
removed. -/
def trainingLoopNoEval {σ δ τ : Type} (o : Oracle σ δ τ) (train : δ) :
    σ × List Rat :=
  fitOnlyFrom o train (o.acm_init, []) max_epochs

/-- A concrete oracle whose fit call reports a single zero loss and whose
metric values are all zero, used to instantiate the abstract theorems. -/
def trivialOracle : Oracle Unit Unit Unit :=
  { load_pdbbind := fun _ => ([], ((), (), ()), [])
    acm_init := ()
    fit := fun _ _ _ => ((), [0])
    evaluate := fun _ _ _ => 0 }

/-- A concrete fallible oracle whose dataset-loading call raises. -/
def failingOracleE : OracleE Unit Unit Unit :=
  { load_pdbbind := fun _ => Except.error "download failed"
    acm_init := ()
    fit := fun s _ _ => Except.ok (s, [0])
    evaluate := fun _ _ _ => Except.ok 0 }

theorem except_ok_bind {α β : Type} (a : α) (f : α → Except String β) :
    (Except.ok a >>= f) = f a := rfl

theorem except_error_bind {α β : Type} (e : String) (f : α → Except String β) :
    ((Except.error e : Except String α) >>= f) = Except.error e := rfl

theorem dictGet_single (k : String) (x : Rat) : dictGet [(k, x)] k = x := by
  simp [dictGet, List.lookup]

theorem loopFrom_succ {σ δ τ : Type} (o : Oracle σ δ τ) (train val : δ)
    (st : RunState σ δ) (n : Nat) :
    loopFrom o train val st (n + 1) =
      trainStep o train val (loopFrom o train val st n) := by
  simp [loopFrom, List.range_succ]

theorem modelAfter_succ {σ δ τ : Type} (o : Oracle σ δ τ) (train : δ) (n : Nat) :
    modelAfter o train (n + 1) = (o.fit (modelAfter o train n) train 1).1 := rfl

/-- Closed form of the training loop started from the notebook's initial
state: the model follows the fit-only trajectory, `losses` collects each
epoch's fit losses, `val_losses` collects the squared per-epoch rms scores,
and the trace is one fit call (nb_epoch = 1) plus one rms evaluate call per
epoch. -/
theorem loopFrom_spec {σ δ τ : Type} (o : Oracle σ δ τ) (train val : δ)
    (n : Nat) :
    loopFrom o train val
        { acm := o.acm_init, losses := [], val_losses := [], trace := [] } n =
      { acm := modelAfter o train n
        losses := (List.range n).flatMap (epochLosses o train)
        val_losses := (List.range n).map (valLossAt o train val)
        trace := (List.range n).flatMap
          (fun _ => [Event.fitCall train 1 1,
                     Event.evalCall val [ScoreFunction.rms_score]]) } := by
  induction n with
  | zero => rfl
  | succ n ih =>
    rw [loopFrom_succ, ih]
    simp [trainStep, acmEvaluate, ScoreFunction.metricName, dictGet_single,
      List.range_succ, valLossAt, modelAfter, epochLosses]

theorem fitOnlyFrom_succ {σ δ τ : Type} (o : Oracle σ δ τ) (train : δ)
    (p : σ × List Rat) (n : Nat) :
    fitOnlyFrom o train p (n + 1) =
      ((o.fit (fitOnlyFrom o train p n).1 train 1).1,
       (fitOnlyFrom o train p n).2 ++ (o.fit (fitOnlyFrom o train p n).1 train 1).2) := by
  simp [fitOnlyFrom, List.range_succ]

/-- Closed form of the fit-only loop: the same trajectory and the same loss
history as the full loop. -/
theorem fitOnly_spec {σ δ τ : Type} (o : Oracle σ δ τ) (train : δ) (n : Nat) :
    fitOnlyFrom o train (o.acm_init, []) n =
      (modelAfter o train n, (List.range n).flatMap (epochLosses o train)) := by
  induction n with
  | zero => rfl
  | succ n ih =>
    rw [fitOnlyFrom_succ, ih]
    simp [modelAfter, epochLosses, List.range_succ]

/-- C1: the training loop performs exactly max_epochs = 50 iterations; each
iteration calls fit on the training split with nb_epoch = 1, accumulating
that epoch's training losses into the loss history list, and appends exactly
one validation-loss value, so after the loop val_losses contains exactly 50
values, one per epoch. -/
theorem spec_C1_training_loop_shape {σ δ τ : Type} (o : Oracle σ δ τ)
    (train val : δ) :
    max_epochs = 50 ∧
    (trainingLoop o train val).val_losses.length = 50 ∧
    (trainingLoop o train val).val_losses =
      (List.range 50).map (valLossAt o train val) ∧
    (trainingLoop o train val).losses =
      (List.range 50).flatMap (epochLosses o train) ∧
    (trainingLoop o train val).trace =
      (List.range 50).flatMap
        (fun _ => [Event.fitCall train 1 1,
                   Event.evalCall val [ScoreFunction.rms_score]]) := by
  have h := loopFrom_spec o train val 50
  refine ⟨rfl, ?_, ?_, ?_, ?_⟩ <;> simp [trainingLoop, max_epochs, h]

/-- C2: the atom-count and neighbor hyperparameters passed to the model
constructor are exactly the values passed to the featurizer constructor
(100, 1000, 100+1000, 12); under this agreement the modelled
dimension-mismatch failure branch is unreachable (the check succeeds). -/
theorem spec_C2_hyperparameter_agreement :
    (acf.frag1_num_atoms = 100 ∧ acf.frag2_num_atoms = 1000 ∧
     acf.complex_num_atoms = 100 + 1000 ∧ acf.max_num_neighbors = 12) ∧
    (acm.frag1_num_atoms = acf.frag1_num_atoms ∧
     acm.frag2_num_atoms = acf.frag2_num_atoms ∧
     acm.complex_num_atoms = acf.complex_num_atoms ∧
     acm.max_num_neighbors = acf.max_num_neighbors) ∧
    hyperparamsAgree acf acm = true ∧
    dimensionCheck acf acm = Except.ok () :=
  ⟨⟨rfl, rfl, rfl, rfl⟩, ⟨rfl, rfl, rfl, rfl⟩, rfl, rfl⟩

/-- C3: the dataset-loading call is invoked with the featurizer whose
atom-count limits are 100, 1000 and 1100, neighbor cutoff 4 and at most 12
neighbors, with pocket=True, set_name='core' and '.' as both data and save
directory; it returns tasks, three data splits and a list of transformers,
and the three splits are unpacked as train, validation and test (the run
trains on the first split and validates on the second). -/
theorem spec_C3_load_call_configuration {σ δ τ : Type} (o : Oracle σ δ τ) :
    load_pdbbind_args.featurizer = acf ∧
    acf.frag1_num_atoms = 100 ∧ acf.frag2_num_atoms = 1000 ∧
    acf.complex_num_atoms = 1100 ∧ acf.neighbor_cutoff = 4 ∧
    acf.max_num_neighbors = 12 ∧
    load_pdbbind_args.pocket = true ∧
    load_pdbbind_args.set_name = "core" ∧
    load_pdbbind_args.data_dir = "." ∧
    load_pdbbind_args.save_dir = "." ∧
    (notebook o).tasks = (o.load_pdbbind load_pdbbind_args).1 ∧
    (notebook o).transformers = (o.load_pdbbind load_pdbbind_args).2.2 ∧
    (notebook o).run =
      trainingLoop o (o.load_pdbbind load_pdbbind_args).2.1.1
        (o.load_pdbbind load_pdbbind_args).2.1.2.1 :=
  ⟨rfl, rfl, rfl, rfl, rfl, rfl, rfl, rfl, rfl, rfl, rfl, rfl, rfl⟩

/-- C4: the model-construction call receives task count 1, atom-count limits
100 and 1000 with complex limit 1100 (their sum), neighbor limit 12, batch
size 12, hidden-layer sizes [32, 32, 16] and learning rate 0.003. -/
theorem spec_C4_model_hyperparameters :
    acm.n_tasks = 1 ∧ acm.frag1_num_atoms = 100 ∧ acm.frag2_num_atoms = 1000 ∧
    acm.complex_num_atoms = 1100 ∧
    acm.complex_num_atoms = acm.frag1_num_atoms + acm.frag2_num_atoms ∧
    acm.max_num_neighbors = 12 ∧ acm.batch_size = 12 ∧
    acm.layer_sizes = [32, 32, 16] ∧ acm.learning_rate = 3 / 1000 := by
  refine ⟨rfl, rfl, rfl, rfl, rfl, rfl, rfl, rfl, ?_⟩
  norm_num [acm]

/-- C5: after the training loop completes, the model is evaluated once on
each of the train, validation and test splits, in that order, with the
Pearson R2 scoring function, and each evaluation returns a value keyed by
that scoring function's name, pearson_r2_score. -/
theorem spec_C5_final_evaluations {σ δ τ : Type} (o : Oracle σ δ τ) :
    (notebook o).finalScores =
      [("train",
        [("pearson_r2_score",
          o.evaluate (notebook o).run.acm
            (o.load_pdbbind load_pdbbind_args).2.1.1
            ScoreFunction.pearson_r2_score)]),
       ("val",
        [("pearson_r2_score",
          o.evaluate (notebook o).run.acm
            (o.load_pdbbind load_pdbbind_args).2.1.2.1
            ScoreFunction.pearson_r2_score)]),
       ("test",
        [("pearson_r2_score",
          o.evaluate (notebook o).run.acm
            (o.load_pdbbind load_pdbbind_args).2.1.2.2
            ScoreFunction.pearson_r2_score)])] ∧
    ScoreFunction.pearson_r2_score.metricName = "pearson_r2_score" :=
  ⟨rfl, rfl⟩

/-- C6: the plotting call renders exactly two numeric sequences, the
accumulated training losses and the per-epoch validation losses, each
plotted against epoch index (the hypothesis is the spec's training-history
model: each one-epoch fit call reports exactly one loss value). -/
theorem spec_C6_plot_two_sequences {σ δ τ : Type} (o : Oracle σ δ τ)
    (h : ∀ (s : σ) (ds : δ), ((o.fit s ds 1).2).length = 1) :
    (notebook o).plots.length = 2 ∧
    (notebook o).plots =
      [{ xs := List.range 50, ys := (notebook o).run.losses,
         label := "train loss" },
       { xs := List.range 50, ys := (notebook o).run.val_losses,
         label := "val loss" }] := by
  have hlen1 : ∀ train val : δ, (trainingLoop o train val).losses.length = 50 := by
    intro train val
    rw [trainingLoop, show max_epochs = 50 from rfl, loopFrom_spec]
    have hc : (List.length ∘ epochLosses o train) = fun _ => 1 := by
      funext i
      simp [epochLosses, h]
    show ((List.range 50).flatMap (epochLosses o train)).length = 50
    rw [List.length_flatMap, hc]
    decide
  have hlen2 : ∀ train val : δ,
      (trainingLoop o train val).val_losses.length = 50 := by
    intro train val
    rw [trainingLoop, show max_epochs = 50 from rfl, loopFrom_spec]
    simp
  exact ⟨rfl, by simp [notebook, hlen1, hlen2]⟩

/-- C6 witness: the conclusion at a concrete oracle whose fit call reports
one loss value per epoch. -/
theorem spec_C6_witness :
    (notebook trivialOracle).plots.length = 2 ∧
    (notebook trivialOracle).plots =
      [{ xs := List.range 50, ys := (notebook trivialOracle).run.losses,
         label := "train loss" },
       { xs := List.range 50, ys := (notebook trivialOracle).run.val_losses,
         label := "val loss" }] :=
  spec_C6_plot_two_sequences trivialOracle (fun _ _ => rfl)

/-- C7: the notebook contains no error handling: an exception raised by any
library call in the scripted sequence propagates to the caller unchanged (a
failing load aborts the run with that error; a failing fit or rms evaluate
aborts its iteration, a failing iteration aborts the loop, and a failing
loop or final evaluation aborts the run, always with the original error). -/
theorem spec_C7_exception_propagation {σ δ τ : Type} (o : OracleE σ δ τ) :
    (∀ e, o.load_pdbbind load_pdbbind_args = Except.error e →
      notebookE o = Except.error e) ∧
    (∀ (train val : δ) (st : RunState σ δ) e,
      o.fit st.acm train 1 = Except.error e →
      trainStepE o train val st = Except.error e) ∧
    (∀ (train val : δ) (st : RunState σ δ) (s : σ) (ls : List Rat) e,
      o.fit st.acm train 1 = Except.ok (s, ls) →
      o.evaluate s val ScoreFunction.rms_score = Except.error e →
      trainStepE o train val st = Except.error e) ∧
    (∀ (train val : δ) (st : RunState σ δ) (n : Nat) e,
      trainStepE o train val st = Except.error e →
      trainingLoopFromE o train val (n + 1) st = Except.error e) ∧
    (∀ (train val : δ) (st st2 : RunState σ δ) (n : Nat) e,
      trainStepE o train val st = Except.ok st2 →
      trainingLoopFromE o train val n st2 = Except.error e →
      trainingLoopFromE o train val (n + 1) st = Except.error e) ∧
    (∀ (r : List String × (δ × δ × δ) × List τ) e,
      o.load_pdbbind load_pdbbind_args = Except.ok r →
      trainingLoopFromE o r.2.1.1 r.2.1.2.1 max_epochs
        { acm := o.acm_init, losses := [], val_losses := [], trace := [] } =
        Except.error e →
      notebookE o = Except.error e) ∧
    (∀ (r : List String × (δ × δ × δ) × List τ) (run : RunState σ δ) e,
      o.load_pdbbind load_pdbbind_args = Except.ok r →
      trainingLoopFromE o r.2.1.1 r.2.1.2.1 max_epochs
        { acm := o.acm_init, losses := [], val_losses := [], trace := [] } =
        Except.ok run →
      o.evaluate run.acm r.2.1.1 ScoreFunction.pearson_r2_score =
        Except.error e →
      notebookE o = Except.error e) := by
  refine ⟨?_, ?_, ?_, ?_, ?_, ?_, ?_⟩
  · intro e h1
    simp [notebookE, h1, except_error_bind]
  · intro train val st e h1
    simp [trainStepE, h1, except_error_bind]
  · intro train val st s ls e h1 h2
    simp [trainStepE, h1, except_ok_bind, acmEvaluateE, h2, except_error_bind]
  · intro train val st n e h1
    simp [trainingLoopFromE, h1, except_error_bind]
  · intro train val st st2 n e h1 h2
    simp [trainingLoopFromE, h1, except_ok_bind, h2]
  · intro r e h1 h2
    simp [notebookE, h1, except_ok_bind, h2, except_error_bind]
  · intro r run e h1 h2 h3
    simp [notebookE, h1, except_ok_bind, h2, finalScoresE, acmEvaluateE, h3,
      except_error_bind, List.zip]

/-- C7 witness: the conclusion at a concrete oracle whose dataset-loading
call raises, where the run ends with exactly that error. -/
theorem spec_C7_witness :
    notebookE failingOracleE = Except.error "download failed" :=
  (spec_C7_exception_propagation failingOracleE).1 "download failed" rfl

/-- C8: the dataset-loading call (modelled 80/10/10 index split) returns
three splits whose row counts sum to the input dataset's row count for every
input size, and on 193 rows the counts are the recorded 154, 19 and 20. -/
theorem spec_C8_split_row_counts (n : Nat) :
    (splitSizes n).1 + (splitSizes n).2.1 + (splitSizes n).2.2 = n ∧
    splitSizes 193 = (154, 19, 20) := by
  constructor
  · simp only [splitSizes]
    omega
  · rfl

/-- C9: every value appended to val_losses is the square of an rms_score
metric value, hence nonnegative, and each training-loop iteration preserves
the nonnegativity of the whole val_losses list. -/
theorem spec_C9_val_losses_nonneg {σ δ τ : Type} (o : Oracle σ δ τ)
    (train val : δ) :
    (trainingLoop o train val).val_losses =
      (List.range max_epochs).map
        (fun i => o.evaluate (modelAfter o train (i + 1)) val
          ScoreFunction.rms_score ^ 2) ∧
    (∀ v ∈ (trainingLoop o train val).val_losses, 0 ≤ v) ∧
    (∀ st : RunState σ δ,
      (st.val_losses.all fun v => decide (0 ≤ v)) = true →
      ((trainStep o train val st).val_losses.all fun v => decide (0 ≤ v)) =
        true) := by
  refine ⟨?_, ?_, ?_⟩
  · rw [trainingLoop, loopFrom_spec]
    rfl
  · intro v hv
    rw [trainingLoop, loopFrom_spec] at hv
    rcases List.mem_map.1 hv with ⟨i, _, rfl⟩
    exact sq_nonneg _
  · intro st hst
    simp only [trainStep, List.all_append, hst, Bool.true_and, List.all_cons,
      List.all_nil, Bool.and_true, decide_eq_true_eq]
    exact sq_nonneg _

/-- C9 witness: one loop iteration from an empty val_losses list at a
concrete oracle leaves every element of val_losses nonnegative. -/
theorem spec_C9_witness :
    ((trainStep trivialOracle () ()
        { acm := (), losses := [], val_losses := [], trace := [] }).val_losses.all
      fun v => decide (0 ≤ v)) = true :=
  (spec_C9_val_losses_nonneg trivialOracle () ()).2.2
    { acm := (), losses := [], val_losses := [], trace := [] } rfl

/-- C10: evaluation is free of side effects on model and data: the training
trajectory and loss history equal those of the loop with the per-epoch
validation evaluations removed, the choice of validation split does not
affect them, and the final per-split evaluations factor pointwise, so they
do not affect one another. -/
theorem spec_C10_evaluate_frame {σ δ τ : Type} (o : Oracle σ δ τ)
    (train val : δ) :
    (trainingLoop o train val).acm = (trainingLoopNoEval o train).1 ∧
    (trainingLoop o train val).losses = (trainingLoopNoEval o train).2 ∧
    (∀ val2 : δ,
      (trainingLoop o train val).acm = (trainingLoop o train val2).acm ∧
      (trainingLoop o train val).losses =
        (trainingLoop o train val2).losses) ∧
    (∀ (s : σ) (l1 l2 : List (String × δ)),
      finalEvalSeq o s (l1 ++ l2) =
        finalEvalSeq o s l1 ++ finalEvalSeq o s l2) := by
  refine ⟨?_, ?_, ?_, ?_⟩
  · simp only [trainingLoop, loopFrom_spec, trainingLoopNoEval, fitOnly_spec]
  · simp only [trainingLoop, loopFrom_spec, trainingLoopNoEval, fitOnly_spec]
  · intro val2
    simp [trainingLoop, loopFrom_spec]
  · intro s l1 l2
    simp [finalEvalSeq]
